import Mathlib

/-!
Verification development for the `pyreleaser` release tool
(`pyreleaser/cli.py`). The Python functions with decision logic are
shallowly embedded as Lean functions: the version resolver and bump
arithmetic (`update_version`, the `create` argument dispatch), the
precondition checker (`run_checks`), the version-file rewrite
(`update_version_setup_py`, `run_release`) and the build/upload flow
(`build_distributions`, `upload`). External commands (git, setuptools,
twine) are modelled by an explicit repository-state record and by exit
codes; their observable invocations are recorded as action lists.
-/

namespace Pyreleaser

/-- ASCII whitespace as recognised by the Python string-strip and
integer-parse routines (space, tab, newline, carriage return, vertical
tab, form feed). -/
def isPySpace (c : Char) : Bool :=
  c = ' ' ∨ c = '\t' ∨ c = '\n' ∨ c = '\x0d' ∨ c = '\x0b' ∨ c = '\x0c'

/-- Strip leading and trailing whitespace from a character list, as the
Python integer parser does before reading digits. -/
def pyTrim (cs : List Char) : List Char :=
  ((cs.dropWhile isPySpace).reverse.dropWhile isPySpace).reverse

/-- Parse a non-empty all-digit character list as a natural number;
`none` otherwise. -/
def digitsToNat? (cs : List Char) : Option Nat :=
  if cs.isEmpty then none
  else if cs.all Char.isDigit then
    some (cs.foldl (fun a c => a * 10 + (c.toNat - 48)) 0)
  else none

/-- Core of the Python integer parser after whitespace stripping: an
optional single sign, then decimal digits. -/
def pyIntOfChars : List Char → Option Int
  | [] => none
  | c :: rest =>
    if c = '-' then (digitsToNat? rest).map (fun n => -(n : Int))
    else if c = '+' then (digitsToNat? rest).map (fun n => (n : Int))
    else (digitsToNat? (c :: rest)).map (fun n => (n : Int))

/-- Model of the Python built-in integer conversion on the strings this
tool feeds it: surrounding whitespace is stripped, an optional single
sign is allowed, then decimal digits. (Underscore digit-group
separators never occur in version parts and are not modelled.) A
`none` result models the `ValueError` the conversion raises, which
this tool never catches. -/
def pyInt? (s : String) : Option Int :=
  pyIntOfChars (pyTrim s.data)

/-- The Python string-split at dots, on a character list: split at every
dot; n dots give n + 1 groups, empty groups included, and splitting
the empty string gives one empty group. -/
def splitDots : List Char → List (List Char)
  | [] => [[]]
  | c :: rest =>
    match splitDots rest with
    | [] => [[]]
    | g :: gs => if c = '.' then [] :: g :: gs else (c :: g) :: gs

/-- The Python string-split at dots, as a list of strings. -/
def pySplitDot (s : String) : List String :=
  (splitDots s.data).map String.mk

/-- The Python dot-join of a list of strings. -/
def joinDot : List String → String
  | [] => ""
  | [x] => x
  | x :: y :: xs => x ++ "." ++ joinDot (y :: xs)

/-- Embedding of `update_version(current_version, upgrade_type)` from `cli.py`,
returning the `new_split` list of integers that the Python code builds
before joining. `none` models an uncaught `IndexError` (an index into
`split_version` out of range) or `ValueError` (a part `int()` cannot
parse). The final `else` branch is reached for any `upgrade_type` other
than `major`/`minor`; the caller only ever passes `patch` there. -/
def update_version (current_version upgrade_type : String) : Option (List Int) :=
  let split_version := pySplitDot current_version
  if upgrade_type = "major" then
    ((split_version.get? 0).bind pyInt?).map (fun a => [a + 1, 0, 0])
  else if upgrade_type = "minor" then
    match (split_version.get? 0).bind pyInt?, (split_version.get? 1).bind pyInt? with
    | some a, some b => some [a, b + 1, 0]
    | _, _ => none
  else
    match (split_version.get? 0).bind pyInt?, (split_version.get? 1).bind pyInt? with
    | some a, some b =>
      if split_version.length = 2 then some [a, b, 1]
      else ((split_version.get? 2).bind pyInt?).map (fun c => [a, b, c + 1])
    | _, _ => none

/-- The string the Python `update_version` returns: the dot-join of the
decimal renderings of the entries of `new_split`. -/
def update_version_str (current_version upgrade_type : String) : Option String :=
  (update_version current_version upgrade_type).map (fun l => joinDot (l.map toString))

/-- Characters of the trailing character class `[\.\[0-9\]+]` in the
`create` regex: a dot, an opening bracket, a digit, a closing bracket
or a plus sign (the `+` is inside the class, not a repetition). -/
def tailCharAllowed (c : Char) : Bool :=
  c = '.' ∨ c = '[' ∨ c.isDigit ∨ c = ']' ∨ c = '+'

/-- Embedding of the regex test guarding the explicit-version branch of
the `create` command (pattern: anchored `[v]*[0-9]+\.[0-9]+[\.\[0-9\]+]*` ),
as a Boolean matcher: zero or more leading `v`
characters, one or more digits, a literal dot, one or more digits, then
zero or more characters of the class `[\.\[0-9\]+]`, to the end of the
string. (The regex is anchored on both sides, so search = full match;
each quantifier here is deterministic: after `[v]*` a digit must
follow and `v` is not a digit, after each `[0-9]+` either a literal
dot must follow or a class that contains every digit, so greedy
matching never needs backtracking.) -/
def version_regex_match (s : String) : Bool :=
  let afterV := s.data.dropWhile (fun c => c = 'v')
  let d1 := afterV.takeWhile Char.isDigit
  let r1 := afterV.dropWhile Char.isDigit
  if d1.isEmpty then false
  else
    match r1 with
    | '.' :: r2 =>
      let d2 := r2.takeWhile Char.isDigit
      let r3 := r2.dropWhile Char.isDigit
      if d2.isEmpty then false else r3.all tailCharAllowed
    | _ => false

/-- The Python left-strip of the version at the letter v: remove every
leading `v`. -/
def lstripV (s : String) : String :=
  String.mk (s.data.dropWhile (fun c => c = 'v'))

/-- Outcome of the version-resolution step at the top of `create`. -/
inductive ResolveOutcome where
  /-- Pair of `new_version` and `tag_name` as the code computes them. -/
  | resolved (new_version tag_name : String)
  /-- Message of the `click.ClickException` of the final `else` branch. -/
  | invalid (msg : String)
  /-- Uncaught Python exception escaping `update_version` (an
  `IndexError` or a `ValueError`). -/
  | crash
deriving DecidableEq, Repr

/-- The version-resolution step of `create` (lines 140-150 of
`cli.py`): `declared` is the output of `read_version_setup_py()`,
consulted only on the `major`/`minor`/`patch` branch. Note the code
computes the tag name by prefixing `v` to the original, unstripped
input on the explicit-version branch. -/
def resolve_create_version (version declared : String) : ResolveOutcome :=
  if version_regex_match version then
    .resolved (lstripV version) ("v" ++ version)
  else if version = "major" ∨ version = "minor" ∨ version = "patch" then
    match update_version_str declared version with
    | some nv => .resolved nv ("v" ++ nv)
    | none => .crash
  else
    .invalid (version ++ " is not a valid version or semantic version upgrade type.")

/-- The observable repository/environment state that `run_checks`
consults through git and `setup.py`: the current branch name
(`git rev-parse --abbrev-ref HEAD`), whether `git diff-index --quiet
HEAD --` succeeds, the local and remote tag lists, whether `setup.py`
exists, and the output of `python setup.py --version`. -/
structure RepoState where
  branch : String
  clean : Bool
  localTags : List String
  remoteTags : List String
  setupPyExists : Bool
  declaredVersion : String
deriving DecidableEq, Repr

/-- The checks of `run_checks` after the optional branch check. -/
def run_checks_after_branch (st : RepoState) (version tag_name : String) :
    Except String Unit :=
  if !st.clean then .error "uncommited files"
  else if st.localTags.contains tag_name then
    .error ("tag already exists locally (" ++ tag_name ++ ")")
  else if st.remoteTags.contains tag_name then
    .error ("tag already exists remotely (" ++ tag_name ++ ")")
  else if !st.setupPyExists then .error "missing setup.py file"
  else if version = st.declaredVersion then
    .error (version ++ " is already the current version")
  else .ok ()

/-- Embedding of `run_checks(version, tag_name, only_on)` from `cli.py`.
An `.error msg` result models a raised `click.ClickException`. The
Python guard on `only_on` is truthiness on an optional string, so
both `None` and the empty string skip the branch check. -/
def run_checks (st : RepoState) (version tag_name : String)
    (only_on : Option String) : Except String Unit :=
  match only_on with
  | some b =>
    if b = "" then run_checks_after_branch st version tag_name
    else if st.branch ≠ b then
      .error ("not on the " ++ b ++ " branch. (" ++ st.branch ++ ")")
    else run_checks_after_branch st version tag_name
  | none => run_checks_after_branch st version tag_name

/-- Embedding of the per-line regex test of `update_version_setup_py`
(match of pattern `VERSION\s*=` at the start): the line starts with
the literal `VERSION`, then optional whitespace, then `=`. -/
def version_line_matches (line : String) : Bool :=
  if "VERSION".data.isPrefixOf line.data then
    match (line.data.drop 7).dropWhile isPySpace with
    | '=' :: _ => true
    | _ => false
  else false

/-- A single-quote character, as a string. -/
def sq : String := String.mk [Char.ofNat 39]

/-- The replacement line printed by `update_version_setup_py`: the word
VERSION, space, equals sign, space, the new version in single quotes,
and the maintained-by-release-tool trailing comment. -/
def replacement_line (version : String) : String :=
  "VERSION = " ++ sq ++ version ++ sq ++ "  # maintained by release tool"

/-- Embedding of `update_version_setup_py(version)` from `cli.py`, on the file
contents as a list of lines: every line matching `VERSION\s*=` is
replaced by the replacement line, all other lines are kept unchanged,
and the returned Boolean (`changed`) records whether any line matched. -/
def update_version_setup_py (version : String) (lines : List String) :
    List String × Bool :=
  (lines.map (fun l => if version_line_matches l then replacement_line version else l),
   lines.any version_line_matches)

/-- Embedding of `run_release(version, tag_name)` from `cli.py`: rewrite `setup.py`,
fail if no line changed, otherwise stage, commit and tag. On success
the result carries the rewritten lines and the argument vectors of the
three git commands run (`git add`, `git commit`, `git tag`). -/
def run_release (version tag_name : String) (lines : List String) :
    Except String (List String × List (List String)) :=
  let r := update_version_setup_py version lines
  if !r.2 then .error "failed to update setup.py"
  else .ok (r.1,
    [["git", "add", "setup.py"],
     ["git", "commit", "-m", "Release " ++ tag_name],
     ["git", "tag", "-a", "-m", "Release " ++ tag_name, tag_name]])

/-- Observable steps of the `upload` flow. -/
inductive UpAction where
  /-- Removal of the dist directory. -/
  | rmDist
  /-- Invocation of the setuptools build producing the distributions. -/
  | runBuild
  /-- Printing of the captured output of the failed build. -/
  | printBuildOutput
  /-- Invocation of twine uploading every file in dist. -/
  | runTwine
  /-- Printing of the not-run upload command on a dry run. -/
  | printNotRunning
deriving DecidableEq, Repr

/-- Embedding of `build_distributions` from `cli.py`, abstracted over the exit
status of the build command: the actions performed, and the
`ClickException` message when the build exits non-zero. -/
def build_distributions (buildExit : Int) : List UpAction × Option String :=
  if buildExit ≠ 0 then
    ([.rmDist, .runBuild, .printBuildOutput], some "failed to build distribution")
  else
    ([.rmDist, .runBuild], none)

/-- The `upload` command from `cli.py`, abstracted over the exit
statuses of the build and twine commands: first `build_distributions`,
then — only when it succeeded — either print the would-be command
(dry run) or run twine; a non-zero twine exit raises
`CalledProcessError`, wrapped by `handle_errors` into a
`ClickException` (modelled as a fixed failure message). -/
def upload (buildExit twineExit : Int) (dry_run : Bool) :
    List UpAction × Option String :=
  match build_distributions buildExit with
  | (acts, some e) => (acts, some e)
  | (acts, none) =>
    if !dry_run then
      if twineExit ≠ 0 then (acts ++ [.runTwine], some "twine upload failed")
      else (acts ++ [.runTwine], none)
    else (acts ++ [.printNotRunning], none)

/-- The six checks of `run_checks` as an ordered condition/message list,
following the order of the spec: required branch, clean tree, local
tag, remote tag, version file present, no-op version. -/
def check_sequence (st : RepoState) (version tag_name : String)
    (only_on : Option String) : List (Bool × String) :=
  [ (match only_on with
     | some b => decide (b ≠ "") && decide (st.branch ≠ b)
     | none => false,
     match only_on with
     | some b => "not on the " ++ b ++ " branch. (" ++ st.branch ++ ")"
     | none => ""),
    (!st.clean, "uncommited files"),
    (st.localTags.contains tag_name, "tag already exists locally (" ++ tag_name ++ ")"),
    (st.remoteTags.contains tag_name, "tag already exists remotely (" ++ tag_name ++ ")"),
    (!st.setupPyExists, "missing setup.py file"),
    (decide (version = st.declaredVersion), version ++ " is already the current version") ]

/-- Return the message of the first condition in the list that holds,
or succeed when none does. -/
def firstFailing : List (Bool × String) → Except String Unit
  | [] => .ok ()
  | (b, msg) :: rest => if b then .error msg else firstFailing rest

/-- A dot-split is never the empty list of groups. -/
theorem splitDots_ne_nil (cs : List Char) : splitDots cs ≠ [] := by
  cases cs with
  | nil => simp [splitDots]
  | cons c rest =>
    simp only [splitDots]
    cases splitDots rest with
    | nil => simp
    | cons g gs => by_cases hc : c = '.' <;> simp [hc]

/-- The string-level dot-split is never the empty list of groups. -/
theorem pySplitDot_ne_nil (s : String) : pySplitDot s ≠ [] := by
  simp [pySplitDot, splitDots_ne_nil]

/-- Dropping by a predicate that holds nowhere drops nothing. -/
theorem dropWhile_of_forall_not (p : Char → Bool) :
    ∀ l : List Char, (∀ c ∈ l, p c = false) → l.dropWhile p = l
  | [], _ => rfl
  | c :: cs, h => by
    have hc := h c (List.mem_cons_self c cs)
    simp [List.dropWhile, hc]

/-- A decimal digit is not Python whitespace. -/
theorem isPySpace_eq_false_of_isDigit (c : Char) (h : c.isDigit = true) :
    isPySpace c = false := by
  simp only [isPySpace, decide_eq_false_iff_not]
  rintro (rfl | rfl | rfl | rfl | rfl | rfl) <;> exact absurd h (by decide)

/-- Trimming an all-digit character list changes nothing. -/
theorem pyTrim_of_digits {l : List Char} (h : l.all Char.isDigit = true) :
    pyTrim l = l := by
  have hns : ∀ c ∈ l, isPySpace c = false := fun c hc =>
    isPySpace_eq_false_of_isDigit c (List.all_eq_true.mp h c hc)
  unfold pyTrim
  rw [dropWhile_of_forall_not _ l hns,
    dropWhile_of_forall_not _ l.reverse (fun c hc => hns c (List.mem_reverse.mp hc)),
    List.reverse_reverse]

/-- The integer parse succeeds on every non-empty all-digit string. -/
theorem pyInt?_isSome_of_digits (s : String) (h1 : s.data ≠ [])
    (h2 : s.data.all Char.isDigit = true) : (pyInt? s).isSome = true := by
  unfold pyInt?
  rw [pyTrim_of_digits h2]
  cases hd : s.data with
  | nil => exact absurd hd h1
  | cons c rest =>
    rw [hd] at h2
    have hc : c.isDigit = true := by
      exact List.all_eq_true.mp h2 c (List.mem_cons_self c rest)
    have hm : ¬(c = '-') := fun e => by rw [e] at hc; exact absurd hc (by decide)
    have hp : ¬(c = '+') := fun e => by rw [e] at hc; exact absurd hc (by decide)
    simp [pyIntOfChars, hm, hp, digitsToNat?, h2]

/-- C1: for every current version string, the bump operation computes,
for kind `major`, `(parts[0]+1, 0, 0)`; for `minor`,
`(parts[0], parts[1]+1, 0)`; for `patch`, `(parts[0], parts[1], 1)`
when the current version has exactly two dot-separated parts and
`(parts[0], parts[1], parts[2]+1)` when it has three or more; the
result is rendered as dot-joined decimal text. -/
theorem update_version_bump_rules (cur : String) :
    (∀ (s0 : String) (a : Int),
        (pySplitDot cur)[0]? = some s0 → pyInt? s0 = some a →
        update_version cur "major" = some [a + 1, 0, 0] ∧
        update_version_str cur "major" = some (toString (a + 1) ++ ".0.0")) ∧
    (∀ (s0 s1 : String) (a b : Int),
        (pySplitDot cur)[0]? = some s0 → (pySplitDot cur)[1]? = some s1 →
        pyInt? s0 = some a → pyInt? s1 = some b →
        update_version cur "minor" = some [a, b + 1, 0] ∧
        update_version_str cur "minor" =
          some (toString a ++ "." ++ toString (b + 1) ++ ".0")) ∧
    (∀ (s0 s1 : String) (a b : Int),
        (pySplitDot cur).length = 2 →
        (pySplitDot cur)[0]? = some s0 → (pySplitDot cur)[1]? = some s1 →
        pyInt? s0 = some a → pyInt? s1 = some b →
        update_version cur "patch" = some [a, b, 1] ∧
        update_version_str cur "patch" =
          some (toString a ++ "." ++ toString b ++ ".1")) ∧
    (∀ (s0 s1 s2 : String) (a b c : Int),
        3 ≤ (pySplitDot cur).length →
        (pySplitDot cur)[0]? = some s0 → (pySplitDot cur)[1]? = some s1 →
        (pySplitDot cur)[2]? = some s2 →
        pyInt? s0 = some a → pyInt? s1 = some b → pyInt? s2 = some c →
        update_version cur "patch" = some [a, b, c + 1] ∧
        update_version_str cur "patch" =
          some (toString a ++ "." ++ toString b ++ "." ++ toString (c + 1))) := by
  refine ⟨?_, ?_, ?_, ?_⟩
  · intro s0 a h0 ha
    have h : update_version cur "major" = some [a + 1, 0, 0] := by
      simp [update_version, h0, ha]
    exact ⟨h, by
      simp [update_version_str, h, joinDot, show toString (0 : Int) = "0" from rfl,
        String.append_assoc]⟩
  · intro s0 s1 a b h0 h1 ha hb
    have h : update_version cur "minor" = some [a, b + 1, 0] := by
      simp [update_version, h0, h1, ha, hb]
    exact ⟨h, by
      simp [update_version_str, h, joinDot, show toString (0 : Int) = "0" from rfl,
        String.append_assoc]⟩
  · intro s0 s1 a b hlen h0 h1 ha hb
    have h : update_version cur "patch" = some [a, b, 1] := by
      simp [update_version, h0, h1, ha, hb, hlen]
    exact ⟨h, by
      simp [update_version_str, h, joinDot, show toString (1 : Int) = "1" from rfl,
        String.append_assoc]⟩
  · intro s0 s1 s2 a b c hlen h0 h1 h2 ha hb hc
    have hne : (pySplitDot cur).length ≠ 2 := by omega
    have h : update_version cur "patch" = some [a, b, c + 1] := by
      simp [update_version, h0, h1, h2, ha, hb, hc, hne]
    exact ⟨h, by simp [update_version_str, h, joinDot, String.append_assoc]⟩

/-- Witness for C1: the bump rules evaluated on the spec examples
`1.2.3` (all three kinds) and the two-part version `1.2` (patch). -/
theorem update_version_bump_rules_witness :
    update_version_str "1.2.3" "major" = some "2.0.0" ∧
    update_version_str "1.2.3" "minor" = some "1.3.0" ∧
    update_version_str "1.2" "patch" = some "1.2.1" ∧
    update_version_str "1.2.3" "patch" = some "1.2.4" := by
  refine ⟨?_, ?_, ?_, ?_⟩
  · exact (((update_version_bump_rules "1.2.3").1 "1" 1 (by decide)
      (by decide)).2).trans (by decide)
  · exact (((update_version_bump_rules "1.2.3").2.1 "1" "2" 1 2 (by decide)
      (by decide) (by decide) (by decide)).2).trans (by decide)
  · exact (((update_version_bump_rules "1.2").2.2.1 "1" "2" 1 2 (by decide)
      (by decide) (by decide) (by decide) (by decide)).2).trans (by decide)
  · exact (((update_version_bump_rules "1.2.3").2.2.2 "1" "2" "3" 1 2 3
      (by decide) (by decide) (by decide) (by decide) (by decide) (by decide)
      (by decide)).2).trans (by decide)

/-- Counterexample to C3 as stated: a one-component current version
such as `3` does not have absent parts treated as 0; a `minor` or
`patch` bump of it indexes past the end of the split and crashes
(modelled as `none`). -/
theorem update_version_single_part_crash :
    update_version "3" "minor" = none ∧ update_version "3" "patch" = none := by
  decide

/-- C3 amended: for a current version made of dot-separated decimal
digit groups, a `major` bump always succeeds, and `minor` and `patch`
bumps succeed exactly when the version has at least two parts; parts
absent from the current version are not defaulted and a one-component
version fails `minor`/`patch` with an index error. -/
theorem update_version_arity_requirements (cur : String)
    (hd : ∀ p ∈ pySplitDot cur, p.data ≠ [] ∧ p.data.all Char.isDigit = true) :
    (update_version cur "major").isSome = true ∧
    (2 ≤ (pySplitDot cur).length →
      (update_version cur "minor").isSome = true ∧
      (update_version cur "patch").isSome = true) := by
  have hlen0 : 0 < (pySplitDot cur).length :=
    List.length_pos.mpr (pySplitDot_ne_nil cur)
  have h0 : (pySplitDot cur)[0]? = some (pySplitDot cur)[0] :=
    List.getElem?_eq_getElem hlen0
  have hd0 := hd (pySplitDot cur)[0] (List.getElem_mem hlen0)
  obtain ⟨a, ha⟩ := Option.isSome_iff_exists.mp
    (pyInt?_isSome_of_digits _ hd0.1 hd0.2)
  constructor
  · simp [update_version, h0, ha]
  · intro hlen2
    have h1 : (pySplitDot cur)[1]? = some (pySplitDot cur)[1] :=
      List.getElem?_eq_getElem (by omega)
    have hd1 := hd (pySplitDot cur)[1] (List.getElem_mem (by omega))
    obtain ⟨b, hb⟩ := Option.isSome_iff_exists.mp
      (pyInt?_isSome_of_digits _ hd1.1 hd1.2)
    constructor
    · simp [update_version, h0, h1, ha, hb]
    · by_cases hl : (pySplitDot cur).length = 2
      · simp [update_version, h0, h1, ha, hb, hl]
      · have h2 : (pySplitDot cur)[2]? = some (pySplitDot cur)[2] :=
          List.getElem?_eq_getElem (by omega)
        have hd2 := hd (pySplitDot cur)[2] (List.getElem_mem (by omega))
        obtain ⟨c, hc⟩ := Option.isSome_iff_exists.mp
          (pyInt?_isSome_of_digits _ hd2.1 hd2.2)
        simp [update_version, h0, h1, h2, ha, hb, hc, hl]

/-- Witness for the amended C3: all three bump kinds succeed on the
three-part digit version `1.2.3`. -/
theorem update_version_arity_requirements_witness :
    (update_version "1.2.3" "major").isSome = true ∧
    (update_version "1.2.3" "minor").isSome = true ∧
    (update_version "1.2.3" "patch").isSome = true := by
  have h := update_version_arity_requirements "1.2.3" (by decide)
  exact ⟨h.1, (h.2 (by decide)).1, (h.2 (by decide)).2⟩

/-- C9: whenever the bump operation produces a result, the result has
exactly three components; in particular the fourth component of
`1.2.3.4` does not survive a patch bump. -/
theorem update_version_three_components :
    (∀ cur kind l, update_version cur kind = some l → l.length = 3) ∧
    update_version_str "1.2.3.4" "patch" = some "1.2.4" := by
  constructor
  · intro cur kind l h
    simp only [update_version] at h
    split at h
    · rcases Option.map_eq_some'.mp h with ⟨a, -, rfl⟩
      rfl
    · split at h
      · split at h
        · rename_i heq
          simp only [Option.some.injEq] at h
          subst h
          rfl
        · exact absurd h (by simp)
      · split at h
        · split at h
          · simp only [Option.some.injEq] at h
            subst h
            rfl
          · rcases Option.map_eq_some'.mp h with ⟨c, -, rfl⟩
            rfl
        · exact absurd h (by simp)
  · decide

/-- Witness for C9: the three-component invariant applied to the
concrete major bump of `1.2.3`. -/
theorem update_version_three_components_witness :
    update_version "1.2.3" "major" = some [2, 0, 0] ∧ ([(2 : Int), 0, 0]).length = 3 :=
  ⟨by decide, update_version_three_components.1 "1.2.3" "major" [2, 0, 0] (by decide)⟩

/-- C2 (code bug): on the explicit-version branch the code builds the
tag from the original, unstripped input, so a `v`-prefixed input such
as `v1.2` resolves to new version `1.2` but tag name `vv1.2`, not
`v1.2` as the spec states; only unprefixed inputs get the stated tag. -/
theorem create_tag_name_double_v :
    resolve_create_version "v1.2" "0.2" = .resolved "1.2" "vv1.2" ∧
    resolve_create_version "1.2" "0.2" = .resolved "1.2" "v1.2" := by
  decide

/-- C4 (code bug): the trailing part of the `create` regex is a
character class, not a dot-plus-digit-group repetition, so inputs that
the spec says must be rejected — `1.2]`, `1.2+`, and the doubly
prefixed `vv1.2` — are accepted as explicit versions; a string outside
the pattern and the bump keywords does fail with the invalid-input
error naming it. -/
theorem create_regex_overacceptance :
    resolve_create_version "1.2]" "0.2" = .resolved "1.2]" "v1.2]" ∧
    resolve_create_version "1.2+" "0.2" = .resolved "1.2+" "v1.2+" ∧
    resolve_create_version "vv1.2" "0.2" = .resolved "1.2" "vvv1.2" ∧
    resolve_create_version "1.2.x" "0.2" =
      .invalid "1.2.x is not a valid version or semantic version upgrade type." := by
  decide

/-- C5: the precondition checker evaluates its six checks in the fixed
order branch, clean tree, local tag, remote tag, version file, no-op
version, raising the error of the first violated check — it equals the
first-failing scan of the ordered check sequence — and in particular a
state with both a wrong branch and a dirty tree raises the
wrong-branch error. -/
theorem run_checks_order :
    (∀ (st : RepoState) (version tag_name : String) (only_on : Option String),
        run_checks st version tag_name only_on =
          firstFailing (check_sequence st version tag_name only_on)) ∧
    (∀ (st : RepoState) (b version tag_name : String),
        b ≠ "" → st.branch ≠ b → st.clean = false →
        run_checks st version tag_name (some b) =
          .error ("not on the " ++ b ++ " branch. (" ++ st.branch ++ ")")) := by
  constructor
  · intro st version tag_name only_on
    rcases only_on with _ | b <;>
      · simp only [run_checks, run_checks_after_branch, check_sequence, firstFailing]
        split_ifs <;> simp_all
  · intro st b version tag_name hbe hne hdirty
    simp [run_checks, hbe, hne]

/-- Witness for C5: a repository on branch `develop` with a dirty tree,
checked with required branch `master`, fails with the wrong-branch
error, not the dirty-tree error; and the checker agrees with the
ordered scan on that state. -/
theorem run_checks_order_witness :
    run_checks ⟨"develop", false, [], [], true, "0.2"⟩ "1.0.0" "v1.0.0" (some "master") =
      .error "not on the master branch. (develop)" ∧
    run_checks ⟨"develop", false, [], [], true, "0.2"⟩ "1.0.0" "v1.0.0" (some "master") =
      firstFailing
        (check_sequence ⟨"develop", false, [], [], true, "0.2"⟩ "1.0.0" "v1.0.0"
          (some "master")) :=
  ⟨(run_checks_order.2 ⟨"develop", false, [], [], true, "0.2"⟩ "master" "1.0.0"
      "v1.0.0" (by decide) (by decide) (by decide)).trans rfl,
   run_checks_order.1 ⟨"develop", false, [], [], true, "0.2"⟩ "1.0.0" "v1.0.0"
      (some "master")⟩

/-- C7: when the new version equals the declared version and every
earlier precondition passes (branch requirement satisfied or absent,
clean tree, no local or remote tag collision, version file present),
the checker fails with the no-op-version error. -/
theorem run_checks_noop_version_error (st : RepoState)
    (version tag_name : String) (only_on : Option String)
    (hbranch : ∀ b, only_on = some b → b = "" ∨ st.branch = b)
    (hclean : st.clean = true)
    (hl : tag_name ∉ st.localTags)
    (hr : tag_name ∉ st.remoteTags)
    (hs : st.setupPyExists = true)
    (hv : version = st.declaredVersion) :
    run_checks st version tag_name only_on =
      .error (version ++ " is already the current version") := by
  rcases only_on with _ | b
  · simp [run_checks, run_checks_after_branch, hclean, hl, hr, hs, hv]
  · rcases hbranch b rfl with hb | hb <;>
      by_cases hbe : b = "" <;>
      simp [run_checks, run_checks_after_branch, hb, hbe, hclean, hl, hr, hs, hv]

/-- Witness for C7: releasing version `0.2` over a clean repository
that already declares `0.2` fails with the no-op-version error. -/
theorem run_checks_noop_version_error_witness :
    run_checks ⟨"master", true, [], [], true, "0.2"⟩ "0.2" "v0.2" none =
      .error "0.2 is already the current version" :=
  (run_checks_noop_version_error ⟨"master", true, [], [], true, "0.2"⟩ "0.2" "v0.2"
    none (fun b h => by cases h) (by decide) (by decide) (by decide) (by decide)
    (by decide)).trans rfl

/-- C10: with every earlier precondition passing, the no-op check
compares version strings by exact textual equality — the checker
succeeds precisely when the new version differs as text from the
declared one, so a numerically equal but textually different version
passes. -/
theorem run_checks_textual_comparison (st : RepoState)
    (version tag_name : String) (only_on : Option String)
    (hbranch : ∀ b, only_on = some b → b = "" ∨ st.branch = b)
    (hclean : st.clean = true)
    (hl : tag_name ∉ st.localTags)
    (hr : tag_name ∉ st.remoteTags)
    (hs : st.setupPyExists = true) :
    run_checks st version tag_name only_on = .ok () ↔
      version ≠ st.declaredVersion := by
  by_cases hv : version = st.declaredVersion <;>
    rcases only_on with _ | b
  · simp [run_checks, run_checks_after_branch, hclean, hl, hr, hs, hv]
  · rcases hbranch b rfl with hb | hb <;>
      by_cases hbe : b = "" <;>
      simp [run_checks, run_checks_after_branch, hb, hbe, hclean, hl, hr, hs, hv]
  · simp [run_checks, run_checks_after_branch, hclean, hl, hr, hs, hv]
  · rcases hbranch b rfl with hb | hb <;>
      by_cases hbe : b = "" <;>
      simp [run_checks, run_checks_after_branch, hb, hbe, hclean, hl, hr, hs, hv]

/-- Witness for C10: new version `1.2.0` passes the checks of a
repository whose file declares `1.2` — the same version numerically,
different text. -/
theorem run_checks_textual_comparison_witness :
    run_checks ⟨"master", true, [], [], true, "1.2"⟩ "1.2.0" "v1.2.0" none =
      .ok () :=
  (run_checks_textual_comparison ⟨"master", true, [], [], true, "1.2"⟩ "1.2.0"
    "v1.2.0" none (fun b h => by cases h) (by decide) (by decide) (by decide)
    (by decide)).mpr (by decide)

/-- C6: the version-file rewrite maps every line matching the
version-declaration pattern to the replacement line, leaves every
non-matching line identical (length preserved), and the release
executor fails with the update-did-not-take-effect error exactly when
no line matched; when one did, it proceeds to stage, commit and tag. -/
theorem update_setup_py_rewrite (version tag_name : String) (lines : List String) :
    ((update_version_setup_py version lines).1.length = lines.length) ∧
    (∀ i (h : i < lines.length),
        version_line_matches lines[i] = true →
        (update_version_setup_py version lines).1[i]? =
          some (replacement_line version)) ∧
    (∀ i (h : i < lines.length),
        version_line_matches lines[i] = false →
        (update_version_setup_py version lines).1[i]? = some lines[i]) ∧
    (run_release version tag_name lines = .error "failed to update setup.py" ↔
        lines.any version_line_matches = false) ∧
    (lines.any version_line_matches = true →
        run_release version tag_name lines =
          .ok ((update_version_setup_py version lines).1,
            [["git", "add", "setup.py"],
             ["git", "commit", "-m", "Release " ++ tag_name],
             ["git", "tag", "-a", "-m", "Release " ++ tag_name, tag_name]])) := by
  refine ⟨by simp [update_version_setup_py], ?_, ?_, ?_, ?_⟩
  · intro i h hm
    simp [update_version_setup_py, List.getElem?_map, List.getElem?_eq_getElem h, hm]
  · intro i h hm
    simp [update_version_setup_py, List.getElem?_map, List.getElem?_eq_getElem h, hm]
  · by_cases ha : lines.any version_line_matches <;>
      simp [run_release, update_version_setup_py, ha]
  · intro ha
    simp [run_release, update_version_setup_py, ha]

/-- Witness for C6: on a three-line file whose middle line declares the
version, the rewrite replaces exactly that line, keeps the header
byte-identical, and the release proceeds to the git commands. -/
theorem update_setup_py_rewrite_witness :
    (update_version_setup_py "9.9" ["# header", "VERSION = 0.2", "tail"]).1[1]? =
      some (replacement_line "9.9") ∧
    (update_version_setup_py "9.9" ["# header", "VERSION = 0.2", "tail"]).1[0]? =
      some "# header" ∧
    run_release "9.9" "v9.9" ["# header", "VERSION = 0.2", "tail"] =
      .ok ((update_version_setup_py "9.9" ["# header", "VERSION = 0.2", "tail"]).1,
        [["git", "add", "setup.py"],
         ["git", "commit", "-m", "Release " ++ "v9.9"],
         ["git", "tag", "-a", "-m", "Release " ++ "v9.9", "v9.9"]]) :=
  ⟨(update_setup_py_rewrite "9.9" "v9.9" ["# header", "VERSION = 0.2", "tail"]).2.1
      1 (by decide) (by decide),
   (update_setup_py_rewrite "9.9" "v9.9" ["# header", "VERSION = 0.2", "tail"]).2.2.1
      0 (by decide) (by decide),
   (update_setup_py_rewrite "9.9" "v9.9" ["# header", "VERSION = 0.2", "tail"]).2.2.2.2
      (by decide)⟩

/-- C8: in the upload flow, twine runs exactly when the build exited
zero and the dry-run flag is not set; on build failure the captured
output is printed and the flow stops with the build-failure error; on
a dry run after a successful build the would-be command is printed and
nothing is uploaded. -/
theorem upload_gating (buildExit twineExit : Int) (dry_run : Bool) :
    (UpAction.runTwine ∈ (upload buildExit twineExit dry_run).1 ↔
        (buildExit = 0 ∧ dry_run = false)) ∧
    (buildExit ≠ 0 →
      upload buildExit twineExit dry_run =
        ([.rmDist, .runBuild, .printBuildOutput], some "failed to build distribution")) ∧
    (buildExit = 0 → dry_run = true →
      upload buildExit twineExit dry_run =
        ([.rmDist, .runBuild, .printNotRunning], none)) := by
  by_cases hb : buildExit = 0 <;> cases dry_run <;>
    by_cases ht : twineExit = 0 <;>
    simp [upload, build_distributions, hb, ht]

/-- Witness for C8: a failed build (exit 1) prints its output and stops
with the build-failure error; a dry run over a successful build prints
the would-be command without running twine; a wet run over a
successful build runs twine. -/
theorem upload_gating_witness :
    upload 1 0 false =
      ([.rmDist, .runBuild, .printBuildOutput], some "failed to build distribution") ∧
    upload 0 0 true = ([.rmDist, .runBuild, .printNotRunning], none) ∧
    UpAction.runTwine ∈ (upload 0 0 false).1 :=
  ⟨(upload_gating 1 0 false).2.1 (by decide),
   (upload_gating 0 0 true).2.2 rfl rfl,
   (upload_gating 0 0 false).1.mpr ⟨rfl, rfl⟩⟩

end Pyreleaser
